import Mathlib

/-!
Verification development for the `icd-mcp-cloudflare` repository: a WHO
ICD-10/ICD-11 classification proxy consisting of an OAuth2 token manager,
an authenticated API client (`src/client.ts`, provided as
`src/unnamed/part_000`), and an action dispatcher (`src/handlers.ts`).

The TypeScript source is shallowly embedded: JavaScript runtime values are
modelled by `JsValue`, the mutable client fields (`accessToken`,
`tokenExpiry`) by `ClientState`, and the outside world (the system clock
and the two fetch targets) by an `Env` of response streams indexed by call
count, with a `World` record counting the calls made so far.  `fetch`
network errors are not modelled: every fetch yields an HTTP response drawn
from the environment.  Exceptions are modelled by the `Step.err`
constructor; non-termination of the (unbounded) 401-retry recursion is
made observable through a fuel parameter (`Step.fuelOut`).
-/

namespace ICD

/-- Model of a JavaScript runtime value (`unknown`).  JSON numbers are
modelled as integers: every numeric value the claims touch is integral. -/
inductive JsValue where
  | undefined : JsValue
  | null : JsValue
  | bool : Bool → JsValue
  | num : Int → JsValue
  | str : String → JsValue
  | arr : List JsValue → JsValue
  | obj : List (String × JsValue) → JsValue

/-- Property lookup in an object's field list (first match wins; JS object
keys are unique). Missing keys give `undefined`. -/
def lookupField : List (String × JsValue) → String → JsValue
  | [], _ => .undefined
  | (k, v) :: rest, key => if k = key then v else lookupField rest key

/-- JS property access `v[key]` for *non-nullish* `v`: on an object it
looks the key up; on any other non-nullish value (primitives are boxed)
it yields `undefined`.  Access on `null`/`undefined` throws in JS; the
client either guards it with `typeof v === "object" && v !== null`, or
the throw is modelled explicitly at the unguarded dereference sites: the
`parseEntity` call sites, `jsMember` in `searchICD11` and the chapter
listings, and the hit loop of `searchICD11`. -/
def getField : JsValue → String → JsValue
  | .obj fields, key => lookupField fields key
  | _, _ => .undefined

/-- JS truthiness: `undefined`, `null`, `false`, `0` and `""` are falsy. -/
def jsTruthy : JsValue → Bool
  | .undefined => false
  | .null => false
  | .bool b => b
  | .num n => n != 0
  | .str s => s != ""
  | .arr _ => true
  | .obj _ => true

/-- JS `a || b`. -/
def jsOr (a b : JsValue) : JsValue :=
  if jsTruthy a then a else b

mutual

/-- `String(v)` on an array: elements joined by commas, with `null` and
`undefined` elements rendered as the empty string. -/
def jsToStringArr : List JsValue → String
  | [] => ""
  | [x] => jsToStringElem x
  | x :: xs => jsToStringElem x ++ "," ++ jsToStringArr xs

/-- One array element under `Array.prototype.toString`. -/
def jsToStringElem : JsValue → String
  | .undefined => ""
  | .null => ""
  | .bool true => "true"
  | .bool false => "false"
  | .num n => toString n
  | .str s => s
  | .arr xs => jsToStringArr xs
  | .obj _ => "[object Object]"

end

/-- JS `String(v)`. -/
def jsToString : JsValue → String
  | .undefined => "undefined"
  | .null => "null"
  | .bool true => "true"
  | .bool false => "false"
  | .num n => toString n
  | .str s => s
  | .arr xs => jsToStringArr xs
  | .obj _ => "[object Object]"

/-- JSON string escaping for one character. -/
def jsonEscapeChar (c : Char) : String :=
  if c = '\x22' then "\\\x22"
  else if c = '\\' then "\\\\"
  else if c = '\x08' then "\\b"
  else if c = '\x09' then "\\t"
  else if c = '\x0a' then "\\n"
  else if c = '\x0c' then "\\f"
  else if c = '\x0d' then "\\r"
  else if c.toNat < 32 then
    "\\u00" ++ String.mk [Nat.digitChar (c.toNat / 16), Nat.digitChar (c.toNat % 16)]
  else String.mk [c]

/-- JSON string quoting, as produced by `JSON.stringify` on a string. -/
def jsonQuote (s : String) : String :=
  "\x22" ++ String.join (s.data.map jsonEscapeChar) ++ "\x22"

mutual

/-- `JSON.stringify(v)` (no indentation).  `JSON.stringify(undefined)` is
the non-string value `undefined` in JS; the client only stringifies values
guarded to be non-null objects, so the `undefined` case is unreachable there. -/
def jsStringify : JsValue → String
  | .undefined => "undefined"
  | .null => "null"
  | .bool true => "true"
  | .bool false => "false"
  | .num n => toString n
  | .str s => jsonQuote s
  | .arr xs => "[" ++ String.intercalate "," (jsStringifyArrItems xs) ++ "]"
  | .obj fields => "\x7b" ++ String.intercalate "," (jsStringifyObjFields fields) ++ "\x7d"

/-- Rendered array items under `JSON.stringify`: `undefined` renders as
`null`. -/
def jsStringifyArrItems : List JsValue → List String
  | [] => []
  | .undefined :: xs => "null" :: jsStringifyArrItems xs
  | x :: xs => jsStringify x :: jsStringifyArrItems xs

/-- Rendered object fields under `JSON.stringify`: entries whose value is
`undefined` are skipped. -/
def jsStringifyObjFields : List (String × JsValue) → List String
  | [] => []
  | (_, .undefined) :: rest => jsStringifyObjFields rest
  | (k, v) :: rest => (jsonQuote k ++ ":" ++ jsStringify v) :: jsStringifyObjFields rest

end

mutual

/-- `JSON.stringify(v, null, 2)`: two-space-indented pretty printing, as
used by the `api` action to render a raw response.  `ind` is the
indentation of the enclosing line. -/
def jsStringifyPretty (ind : String) : JsValue → String
  | .undefined => "undefined"
  | .null => "null"
  | .bool true => "true"
  | .bool false => "false"
  | .num n => toString n
  | .str s => jsonQuote s
  | .arr [] => "[]"
  | .arr (x :: xs) =>
    "[\n" ++ String.intercalate ",\n"
        (jsStringifyPrettyArrItems (ind ++ "  ") (x :: xs)) ++ "\n" ++ ind ++ "]"
  | .obj fields =>
    match jsStringifyPrettyObjFields (ind ++ "  ") fields with
    | [] => "\x7b\x7d"
    | fs => "\x7b\n" ++ String.intercalate ",\n" fs ++ "\n" ++ ind ++ "\x7d"

def jsStringifyPrettyArrItems (ind : String) : List JsValue → List String
  | [] => []
  | .undefined :: xs => (ind ++ "null") :: jsStringifyPrettyArrItems ind xs
  | x :: xs => (ind ++ jsStringifyPretty ind x) :: jsStringifyPrettyArrItems ind xs

def jsStringifyPrettyObjFields (ind : String) : List (String × JsValue) → List String
  | [] => []
  | (_, .undefined) :: rest => jsStringifyPrettyObjFields ind rest
  | (k, v) :: rest =>
    (ind ++ jsonQuote k ++ ": " ++ jsStringifyPretty ind v) ::
      jsStringifyPrettyObjFields ind rest

end

/-- First-occurrence replacement on character lists (JS
`String.prototype.replace` with a string pattern replaces only the first
occurrence, unlike Lean's `String.replace`). -/
def replaceFirstAux (s pat rep : List Char) : List Char :=
  if pat.isPrefixOf s then rep ++ s.drop pat.length
  else
    match s with
    | [] => []
    | c :: cs => c :: replaceFirstAux cs pat rep

/-- JS `s.replace(pat, rep)` for a string pattern: first occurrence only. -/
def replaceFirst (s pat rep : String) : String :=
  ⟨replaceFirstAux s.data pat.data rep.data⟩

/-- JS `s.startsWith(pre)`, computed on the character lists. -/
def jsStartsWith (s pre : String) : Bool :=
  pre.data.isPrefixOf s.data

/-- A string as the list of its one-character strings: the result of
iterating a JS string with `for..of` (surrogate pairs aside, which the
claims never touch). -/
def strChars (s : String) : List JsValue :=
  s.data.map (fun c => .str (String.mk [c]))

/-- JS `xs.slice(0, e)` for an integer `e`: a negative `e` counts from the
end of the array. -/
def jsSliceTo (xs : List JsValue) (e : Int) : List JsValue :=
  if e < 0 then xs.take (xs.length - (-e).toNat) else xs.take e.toNat

-- ==================== Source data model (src/types.ts) ====================

/-- `ICDEntity` (src/types.ts).  Fields that `parseEntity` builds with
`String(...)` are `String`; fields it guards with a truthiness ternary are
`Option String`; fields it copies out of the raw JSON unconverted are kept
as `JsValue`, since the TypeScript `as string` casts do not convert at
runtime. -/
structure ICDEntity where
  code : JsValue
  title : String
  definition : Option String
  longDefinition : Option String
  inclusions : Option (List JsValue)
  exclusions : Option (List JsValue)
  codingNote : Option String
  parent : Option JsValue
  children : Option (List JsValue)
  uri : JsValue
  classKind : JsValue
  browserUrl : JsValue

/-- `ICDSearchResult` (src/types.ts); fields kept as `JsValue` where
`searchICD11` copies raw hit fields through (`score`, `chapter`) or
defaults them with `|| ""` (`code`, `title`, `uri`). -/
structure ICDSearchResult where
  code : JsValue
  title : JsValue
  score : JsValue
  uri : JsValue
  chapter : JsValue

/-- `ICDChapter` (src/types.ts). -/
structure ICDChapter where
  code : JsValue
  title : String
  uri : String

/-- `ToolResult` (src/types.ts): each content item is a `"text"`-typed
block, modelled by its text. `isError` is optional, as in the source. -/
structure ToolResult where
  content : List String
  isError : Option Bool

/-- A thrown JS `Error`, identified by its message. -/
structure JsError where
  message : String

/-- Client configuration after the constructor applied its defaults. -/
structure Config where
  clientId : String
  clientSecret : String
  icd10Release : String
  icd11Release : String
  language : String

/-- The client's mutable fields: `accessToken: string | null` and
`tokenExpiry: number` (milliseconds). -/
structure ClientState where
  accessToken : Option String
  tokenExpiry : Int

/-- Parsed JSON body of a token-endpoint response together with its HTTP
status and text body (the text is read only on failure). -/
structure AuthResp where
  status : Nat
  accessToken : String
  expiresIn : Int
  text : String

/-- An HTTP response of the classification API: status, parsed JSON body
(read on success) and text body (read on non-success). -/
structure ApiResp where
  status : Nat
  json : JsValue
  text : String

/-- The outside world: the system clock and the responses of the token
endpoint and the classification API, indexed by call order.  The URL of a
request does not determine the modelled response; quantifying over `Env`
covers every behaviour of the remote service. -/
structure Env where
  now : Nat → Int
  authResp : Nat → AuthResp
  apiResp : Nat → ApiResp

/-- Counts of the observable effects performed so far: `Date.now()` calls,
token-endpoint fetches and classification-API fetches. -/
structure World where
  clock : Nat
  auths : Nat
  apis : Nat

/-- Outcome of running an operation: a value with the updated client state
and world, a thrown error, or fuel exhaustion (standing for the
non-terminating executions of the unbounded 401-retry recursion, which no
`catch` can intercept). -/
inductive Step (α : Type) where
  | ok : α → ClientState → World → Step α
  | err : JsError → ClientState → World → Step α
  | fuelOut : ClientState → World → Step α

/-- Whether a step outcome is a thrown error. -/
def Step.isErr {α : Type} : Step α → Bool
  | .err _ _ _ => true
  | _ => false

/-- JS property access `v.field` where `v` may be nullish: reading a
property of `null`/`undefined` throws a `TypeError`; on any other value
it behaves as `getField`.  Used where the source dereferences a response
body that no guard protects (`data.destinationEntities` in `searchICD11`,
`data.child` in the chapter listings). -/
def jsMember (v : JsValue) (field : String) : Except JsError JsValue :=
  match v with
  | .null =>
    .error ⟨"Cannot read properties of null (reading \x27" ++ field ++ "\x27)"⟩
  | .undefined =>
    .error ⟨"Cannot read properties of undefined (reading \x27" ++ field ++ "\x27)"⟩
  | d => .ok (getField d field)

-- ==================== Entity normalization (client, parseEntity) ====================

/-- JS `typeof v === "object" && v !== null` (true for plain objects and
arrays, false for `null` and every primitive). -/
def isObjectNotNull : JsValue → Bool
  | .obj _ => true
  | .arr _ => true
  | _ => false

/-- One inclusion/exclusion list item, following the map bodies in
`parseEntity`: unwrap an object's `label` (itself possibly a localized
object carrying `"@value"`), falling back to `JSON.stringify` of the whole
item; stringify primitives with `String(...)`. -/
def parseLabelItem (i : JsValue) : JsValue :=
  if isObjectNotNull i then
    let label := getField i "label"
    if isObjectNotNull label then
      jsOr (getField label "@value") (.str (jsStringify i))
    else
      jsOr label (.str (jsStringify i))
  else
    .str (jsToString i)

/-- `parseEntity` (client, lines 305–397): normalize a raw API response
into an `ICDEntity`.  In JS, property access on a `null`/`undefined`
`data` throws; that throw is modelled at the call sites (all of which sit
inside `try` blocks), so `parseEntity` itself is applied only to
non-nullish values. -/
def parseEntity (data : JsValue) : ICDEntity :=
  let code := jsOr (jsOr (jsOr (getField data "code") (getField data "theCode"))
      (getField data "codeRange")) (.str "")
  let title0 := getField data "title"
  let title := if isObjectNotNull title0 then
      jsOr (getField title0 "@value") (.str (jsStringify title0)) else title0
  let definition0 := getField data "definition"
  let definition := if isObjectNotNull definition0 then
      getField definition0 "@value" else definition0
  let longDefinition0 := getField data "longDefinition"
  let longDefinition := if isObjectNotNull longDefinition0 then
      getField longDefinition0 "@value" else longDefinition0
  let inclusionData := jsOr (getField data "inclusion") (getField data "indexTerm")
  let inclusions : Option (List JsValue) :=
    match inclusionData with
    | .arr items => some (items.map parseLabelItem)
    | _ => none
  let exclusions : Option (List JsValue) :=
    match getField data "exclusion" with
    | .arr items => some (items.map parseLabelItem)
    | _ => none
  let codingNote0 := getField data "codingNote"
  let codingNote := if isObjectNotNull codingNote0 then
      getField codingNote0 "@value" else codingNote0
  let parent : Option JsValue :=
    match getField data "parent" with
    | .arr (x :: _) => some x
    | .str s => some (.str s)
    | _ => none
  let children : Option (List JsValue) :=
    match getField data "child" with
    | .arr xs => some xs
    | .str s => some [.str s]
    | _ => none
  { code := code
    title := jsToString (jsOr title (.str ""))
    definition := if jsTruthy definition then some (jsToString definition) else none
    longDefinition :=
      if jsTruthy longDefinition then some (jsToString longDefinition) else none
    inclusions := inclusions
    exclusions := exclusions
    codingNote := if jsTruthy codingNote then some (jsToString codingNote) else none
    parent := parent
    children := children
    uri := jsOr (getField data "@id") (jsOr (getField data "id") .undefined)
    classKind := getField data "classKind"
    browserUrl := getField data "browserUrl" }

-- ==================== Token manager and apiRequest (client) ====================

/-- `authenticate` (client, lines 33–55): one POST to the token endpoint.
On a non-2xx status it throws; on success it stores the token and sets
`tokenExpiry = Date.now() + (expires_in - 300) * 1000`. -/
def authenticate (env : Env) (s : ClientState) (w : World) : Step Unit :=
  let r := env.authResp w.auths
  let w1 : World := { w with auths := w.auths + 1 }
  if ¬ (200 ≤ r.status ∧ r.status < 300) then
    .err ⟨"Authentication failed: " ++ toString r.status ++ " - " ++ r.text⟩ s w1
  else
    let tNow := env.now w1.clock
    let w2 : World := { w1 with clock := w1.clock + 1 }
    .ok () { accessToken := some r.accessToken,
             tokenExpiry := tNow + (r.expiresIn - 300) * 1000 } w2

/-- `ensureToken` (client, lines 60–65): re-authenticate when
`!this.accessToken || Date.now() >= this.tokenExpiry`; note that a cached
*empty* token is falsy in JS and also triggers re-authentication, and that
`Date.now()` is not evaluated when the token is falsy (short-circuit).
The trailing `this.accessToken!` non-null assertion is modelled by
`Option.getD ""`; after a successful `authenticate` the token is present. -/
def ensureToken (env : Env) (s : ClientState) (w : World) : Step String :=
  let tokenFalsy := match s.accessToken with
    | none => true
    | some t => t = ""
  if tokenFalsy then
    match authenticate env s w with
    | .err e s' w' => .err e s' w'
    | .fuelOut s' w' => .fuelOut s' w'
    | .ok _ s' w' => .ok (s'.accessToken.getD "") s' w'
  else
    let tNow := env.now w.clock
    let w1 : World := { w with clock := w.clock + 1 }
    if s.tokenExpiry ≤ tNow then
      match authenticate env s w1 with
      | .err e s' w' => .err e s' w'
      | .fuelOut s' w' => .fuelOut s' w'
      | .ok _ s' w' => .ok (s'.accessToken.getD "") s' w'
    else
      .ok (s.accessToken.getD "") s w1

/-- `apiRequest` (client, lines 70–103): ensure a token, perform one GET,
and dispatch on the status.  On 401 the cached token is cleared and the
whole request re-issued by a recursive call with *no* retry counter; the
fuel parameter makes the resulting unbounded recursion observable
(`.fuelOut` stands for executions that loop forever).  The endpoint and
query parameters are carried for fidelity; the modelled response is drawn
from the environment by call order. -/
def apiRequest (env : Env) (endpoint : String)
    (params : Option (List (String × String))) :
    Nat → ClientState → World → Step JsValue
  | 0, s, w => .fuelOut s w
  | fuel + 1, s, w =>
    match ensureToken env s w with
    | .err e s' w' => .err e s' w'
    | .fuelOut s' w' => .fuelOut s' w'
    | .ok _token s1 w1 =>
      let r := env.apiResp w1.apis
      let w2 : World := { w1 with apis := w1.apis + 1 }
      if r.status = 401 then
        apiRequest env endpoint params fuel { s1 with accessToken := none } w2
      else if r.status = 429 then
        .err ⟨"Rate limit exceeded. Please try again later."⟩ s1 w2
      else if ¬ (200 ≤ r.status ∧ r.status < 300) then
        .err ⟨"API request failed: " ++ toString r.status ++ " - " ++ r.text⟩ s1 w2
      else
        .ok r.json s1 w2

-- ==================== Endpoint operations (client) ====================

/-- `getEntityByUri` (client, lines 285–300): normalize the scheme, strip
the service origin, request, and parse.  All errors from the request (and
the JS `TypeError` from `parseEntity` when the response body is
`null`) are caught and turned into `null`; only fuel exhaustion
(divergence) escapes, as no `catch` can intercept non-termination. -/
def getEntityByUri (env : Env) (uri : String) (fuel : Nat) (s : ClientState)
    (w : World) : Step (Option ICDEntity) :=
  let cleanUri := if jsStartsWith uri "http://" then
      replaceFirst uri "http://" "https://" else uri
  let endpoint := replaceFirst cleanUri "https://id.who.int" ""
  match apiRequest env endpoint none fuel s w with
  | .err _ s' w' => .ok none s' w'
  | .fuelOut s' w' => .fuelOut s' w'
  | .ok data s' w' =>
    match data with
    | .null => .ok none s' w'
    | .undefined => .ok none s' w'
    | d => .ok (some (parseEntity d)) s' w'

/-- `getICD10Code` (client, lines 110–120): fetch the entity directly by
code; any error is caught and yields `null`. -/
def getICD10Code (cfg : Config) (env : Env) (code : String) (fuel : Nat)
    (s : ClientState) (w : World) : Step (Option ICDEntity) :=
  match apiRequest env ("/icd/release/10/" ++ cfg.icd10Release ++ "/" ++ code)
      none fuel s w with
  | .err _ s' w' => .ok none s' w'
  | .fuelOut s' w' => .fuelOut s' w'
  | .ok data s' w' =>
    match data with
    | .null => .ok none s' w'
    | .undefined => .ok none s' w'
    | d => .ok (some (parseEntity d)) s' w'

/-- `getICD11Code` (client, lines 174–190): resolve the stem identifier
via the codeinfo endpoint, then fetch the full entity by that URI.  A
missing/falsy `stemId` yields `null`; any thrown error is caught and
yields `null` — including the JS `TypeError` when a truthy `stemId` is
not a string (it surfaces from `uri.startsWith` before `getEntityByUri`'s
own `try`) and the `TypeError` from `codeinfo.stemId` on a `null` body,
both of which this `try` absorbs into the same `null` outcome the
wildcard branch models. -/
def getICD11Code (cfg : Config) (env : Env) (code : String) (fuel : Nat)
    (s : ClientState) (w : World) : Step (Option ICDEntity) :=
  match apiRequest env
      ("/icd/release/11/" ++ cfg.icd11Release ++ "/mms/codeinfo/" ++ code)
      none fuel s w with
  | .err _ s' w' => .ok none s' w'
  | .fuelOut s' w' => .fuelOut s' w'
  | .ok codeinfo s' w' =>
    match getField codeinfo "stemId" with
    | .str stemId =>
      if stemId = "" then .ok none s' w'
      else getEntityByUri env stemId fuel s' w'
    | _ => .ok none s' w'

/-- The per-child resolution loop shared verbatim by `getICD10Children`
(lines 153–167) and `getICD11Children` (lines 264–278): resolve each child
URI, keeping the entities that resolve.  A non-string child URI makes
`getEntityByUri`'s `uri.startsWith` throw a `TypeError`, which neither
function catches. -/
def childLoop (env : Env) (fuel : Nat) :
    List JsValue → ClientState → World → Step (List ICDEntity)
  | [], s, w => .ok [] s w
  | u :: rest, s, w =>
    match u with
    | .str us =>
      (match getEntityByUri env us fuel s w with
       | .err e s' w' => .err e s' w'
       | .fuelOut s' w' => .fuelOut s' w'
       | .ok none s' w' => childLoop env fuel rest s' w'
       | .ok (some c) s' w' =>
         match childLoop env fuel rest s' w' with
         | .ok cs s'' w'' => .ok (c :: cs) s'' w''
         | r => r)
    | _ => .err ⟨"cleanUri.startsWith is not a function"⟩ s w

/-- `getICD10Children` (client, lines 153–167): missing parent or missing
child list yields `[]`; otherwise resolve the first 20 child URIs. -/
def getICD10Children (cfg : Config) (env : Env) (code : String) (fuel : Nat)
    (s : ClientState) (w : World) : Step (List ICDEntity) :=
  match getICD10Code cfg env code fuel s w with
  | .err e s' w' => .err e s' w'
  | .fuelOut s' w' => .fuelOut s' w'
  | .ok none s' w' => .ok [] s' w'
  | .ok (some entity) s' w' =>
    match entity.children with
    | none => .ok [] s' w'
    | some children => childLoop env fuel (children.take 20) s' w'

/-- `getICD11Children` (client, lines 264–278): same shape as the ICD-10
variant, resolving the parent through `getICD11Code`. -/
def getICD11Children (cfg : Config) (env : Env) (code : String) (fuel : Nat)
    (s : ClientState) (w : World) : Step (List ICDEntity) :=
  match getICD11Code cfg env code fuel s w with
  | .err e s' w' => .err e s' w'
  | .fuelOut s' w' => .fuelOut s' w'
  | .ok none s' w' => .ok [] s' w'
  | .ok (some entity) s' w' =>
    match entity.children with
    | none => .ok [] s' w'
    | some children => childLoop env fuel (children.take 20) s' w'

/-- The per-chapter loop shared verbatim by `getICD10Chapters` (lines
125–148) and `getICD11Chapters` (lines 236–259): each iteration is wrapped
in its own `try`, so a failed resolution (including the `TypeError` on a
non-string URI) is skipped silently; fuel exhaustion still escapes. -/
def chapterLoop (env : Env) (fuel : Nat) :
    List JsValue → ClientState → World → Step (List ICDChapter)
  | [], s, w => .ok [] s w
  | u :: rest, s, w =>
    match u with
    | .str us =>
      (match getEntityByUri env us fuel s w with
       | .err _ s' w' => chapterLoop env fuel rest s' w'
       | .fuelOut s' w' => .fuelOut s' w'
       | .ok none s' w' => chapterLoop env fuel rest s' w'
       | .ok (some cd) s' w' =>
         match chapterLoop env fuel rest s' w' with
         | .ok cs s'' w'' => .ok ({ code := cd.code, title := cd.title, uri := us } :: cs) s'' w''
         | r => r)
    | _ => chapterLoop env fuel rest s w

/-- The `if (data.child) { for (const uri of data.child) ... }` guard of
both chapter listings.  Reading `data.child` on a `null`/`undefined` body
throws a `TypeError` (uncaught — it happens before the per-chapter `try`
blocks, so it propagates out of the whole listing); otherwise a falsy
`child` skips the loop; an array iterates its elements; a string iterates
its characters (JS strings are iterable); any other truthy value throws a
`TypeError` from `for..of`. -/
def chapterChildList (data : JsValue) : Except JsError (List JsValue) :=
  match jsMember data "child" with
  | .error e => .error e
  | .ok child =>
    match child with
    | .arr xs => .ok xs
    | .str cs => if cs = "" then .ok [] else .ok (strChars cs)
    | v => if jsTruthy v then .error ⟨"data.child is not iterable"⟩ else .ok []

/-- `getICD10Chapters` (client, lines 125–148). -/
def getICD10Chapters (cfg : Config) (env : Env) (fuel : Nat) (s : ClientState)
    (w : World) : Step (List ICDChapter) :=
  match apiRequest env ("/icd/release/10/" ++ cfg.icd10Release) none fuel s w with
  | .err e s' w' => .err e s' w'
  | .fuelOut s' w' => .fuelOut s' w'
  | .ok data s' w' =>
    match chapterChildList data with
    | .error e => .err e s' w'
    | .ok uris => chapterLoop env fuel uris s' w'

/-- `getICD11Chapters` (client, lines 236–259). -/
def getICD11Chapters (cfg : Config) (env : Env) (fuel : Nat) (s : ClientState)
    (w : World) : Step (List ICDChapter) :=
  match apiRequest env ("/icd/release/11/" ++ cfg.icd11Release ++ "/mms") none fuel s w with
  | .err e s' w' => .err e s' w'
  | .fuelOut s' w' => .fuelOut s' w'
  | .ok data s' w' =>
    match chapterChildList data with
    | .error e => .err e s' w'
    | .ok uris => chapterLoop env fuel uris s' w'

-- ==================== Search (client, searchICD11) ====================

/-- The query-parameter record built by `searchICD11` (lines 196–205):
fixed search flags plus an optional chapter filter, appended only when
truthy. -/
def searchParams (query : String) (chapterFilter : Option String) :
    List (String × String) :=
  [("q", query), ("useFlexisearch", "true"), ("flatResults", "true"),
   ("highlightingEnabled", "false")] ++
  (match chapterFilter with
   | some c => if c = "" then [] else [("chapterFilter", c)]
   | none => [])

/-- One search hit mapped into an `ICDSearchResult` (lines 220–227):
`code`/`title`/`uri` default to `""` via `||`; `score` and `chapter` are
copied raw (absent fields stay `undefined`).  Applied only to non-nullish
hits: on a `null`/`undefined` hit the loop's first field read
(`item.theCode`) throws before any conversion happens, which
`searchResultsLoop` models. -/
def toSearchResult (item : JsValue) : ICDSearchResult :=
  { code := jsOr (getField item "theCode") (.str "")
    title := jsOr (getField item "title") (.str "")
    score := getField item "score"
    uri := jsOr (getField item "id") (.str "")
    chapter := getField item "chapter" }

/-- The `for (const item of entities.slice(0, maxResults))` loop of
`searchICD11` (lines 220–228): each non-nullish hit is converted, in
order; a `null`/`undefined` hit throws a `TypeError` at `item.theCode`
(line 222), which nothing inside `searchICD11` catches. -/
def searchResultsLoop : List JsValue → Except JsError (List ICDSearchResult)
  | [] => .ok []
  | JsValue.null :: _ =>
    .error ⟨"Cannot read properties of null (reading \x27theCode\x27)"⟩
  | JsValue.undefined :: _ =>
    .error ⟨"Cannot read properties of undefined (reading \x27theCode\x27)"⟩
  | item :: rest =>
    match searchResultsLoop rest with
    | .ok rs => .ok (toSearchResult item :: rs)
    | .error e => .error e

/-- `searchICD11` (client, lines 195–231): one search request, then
`(data.destinationEntities || []).slice(0, maxResults)` converted hit by
hit.  Reading `data.destinationEntities` on a `null`/`undefined` body
throws a `TypeError` (line 218, uncaught here); so does `item.theCode` on
a nullish hit (line 222, via `searchResultsLoop`).  A string
`destinationEntities` would be sliced and iterated per character; any
other truthy non-array lacks `.slice` and throws a `TypeError`. -/
def searchICD11 (cfg : Config) (env : Env) (query : String) (maxResults : Int)
    (chapterFilter : Option String) (fuel : Nat) (s : ClientState) (w : World) :
    Step (List ICDSearchResult) :=
  match apiRequest env ("/icd/release/11/" ++ cfg.icd11Release ++ "/mms/search")
      (some (searchParams query chapterFilter)) fuel s w with
  | .err e s' w' => .err e s' w'
  | .fuelOut s' w' => .fuelOut s' w'
  | .ok data s' w' =>
    match jsMember data "destinationEntities" with
    | .error e => .err e s' w'
    | .ok dest =>
      match jsOr dest (.arr []) with
      | .arr entities =>
        (match searchResultsLoop (jsSliceTo entities maxResults) with
         | .ok results => .ok results s' w'
         | .error e => .err e s' w')
      | .str cs =>
        (match searchResultsLoop (jsSliceTo (strChars cs) maxResults) with
         | .ok results => .ok results s' w'
         | .error e => .err e s' w')
      | _ => .err ⟨"entities.slice is not a function"⟩ s' w'

-- ==================== Action dispatcher (src/handlers.ts) ====================

/-- JS truthiness of a `string | undefined` value: absent or empty is
falsy. -/
def optTruthy : Option String → Bool
  | none => false
  | some s => s ≠ ""

/-- JS falsiness of a `string | undefined` parameter, as tested by the
dispatcher's `if (!params.x)` validations. -/
def optFalsy : Option String → Bool
  | none => true
  | some s => s = ""

/-- `formatEntity` (handlers.ts, lines 11–53): render an entity as the
markdown text block. -/
def formatEntity (entity : ICDEntity) (version : String) : String :=
  let ls := ["**" ++ jsToString entity.code ++ "**: " ++ entity.title]
  let ls := if optTruthy entity.definition then
      ls ++ ["\n**Definition:** " ++ entity.definition.getD ""] else ls
  let ls := if optTruthy entity.longDefinition ∧
      entity.longDefinition ≠ entity.definition then
      ls ++ ["\n**Details:** " ++ entity.longDefinition.getD ""] else ls
  let ls := if optTruthy entity.codingNote then
      ls ++ ["\n**Coding Note:** " ++ entity.codingNote.getD ""] else ls
  let ls := match entity.inclusions with
    | some incs =>
      if incs.length > 0 then
        ls ++ ["\n**Includes:**"] ++
          (incs.take 10).map (fun inc => "  - " ++ jsToString inc) ++
          (if incs.length > 10 then
            ["  - ... and " ++ toString (incs.length - 10) ++ " more"] else [])
      else ls
    | none => ls
  let ls := match entity.exclusions with
    | some excs =>
      if excs.length > 0 then
        ls ++ ["\n**Excludes:**"] ++
          (excs.take 10).map (fun exc => "  - " ++ jsToString exc) ++
          (if excs.length > 10 then
            ["  - ... and " ++ toString (excs.length - 10) ++ " more"] else [])
      else ls
    | none => ls
  let ls := if jsTruthy entity.browserUrl then
      ls ++ ["\n**Browser:** " ++ jsToString entity.browserUrl] else ls
  let ls := ls ++ ["\n_ICD-" ++ version ++ "_"]
  String.intercalate "\n" ls

/-- The not-found text of `handleLookup` (lines 124–133). -/
def notFoundText (version code : String) : String :=
  "ICD-" ++ version ++ " code \x27" ++ code ++
    "\x27 not found.\n\nTry searching: \x7b\x22action\x22: \x22search\x22, \x22query\x22: \x22...\x22, \x22version\x22: \x22" ++
    version ++ "\x22\x7d"

/-- `handleLookup` (handlers.ts, lines 114–138). -/
def handleLookup (cfg : Config) (env : Env) (code version : String) (fuel : Nat)
    (s : ClientState) (w : World) : Step ToolResult :=
  match (if version = "10" then getICD10Code cfg env code fuel s w
         else getICD11Code cfg env code fuel s w) with
  | .err e s' w' => .err e s' w'
  | .fuelOut s' w' => .fuelOut s' w'
  | .ok none s' w' => .ok ⟨[notFoundText version code], none⟩ s' w'
  | .ok (some entity) s' w' => .ok ⟨[formatEntity entity version], none⟩ s' w'

/-- The numbered result lines of `handleSearch`'s `for` loop (lines
161–164). -/
def searchLines : Nat → List ICDSearchResult → List String
  | _, [] => []
  | i, r :: rest =>
    (toString (i + 1) ++ ". **" ++ jsToString r.code ++ "**: " ++ jsToString r.title)
      :: searchLines (i + 1) rest

/-- The no-results text of `handleSearch` (lines 148–157). -/
def noResultsText (query : String) : String :=
  "No ICD-11 codes found for \x27" ++ query ++ "\x27. Try different search terms."

/-- `handleSearch` (handlers.ts, lines 140–171). -/
def handleSearch (cfg : Config) (env : Env) (query : String) (maxResults : Int)
    (chapter : Option String) (fuel : Nat) (s : ClientState) (w : World) :
    Step ToolResult :=
  match searchICD11 cfg env query maxResults chapter fuel s w with
  | .err e s' w' => .err e s' w'
  | .fuelOut s' w' => .fuelOut s' w'
  | .ok results s' w' =>
    if results.length = 0 then
      .ok ⟨[noResultsText query], none⟩ s' w'
    else
      .ok ⟨[String.intercalate "\n"
          (["**ICD-11 Search Results for \x27" ++ query ++ "\x27:**\n"] ++
            searchLines 0 results ++
            ["\nUse \x7b\x22action\x22: \x22lookup\x22, \x22code\x22: \x22...\x22\x7d for full details."])],
        none⟩ s' w'

/-- `handleChapters` (handlers.ts, lines 173–199). -/
def handleChapters (cfg : Config) (env : Env) (version : String) (fuel : Nat)
    (s : ClientState) (w : World) : Step ToolResult :=
  match (if version = "10" then getICD10Chapters cfg env fuel s w
         else getICD11Chapters cfg env fuel s w) with
  | .err e s' w' => .err e s' w'
  | .fuelOut s' w' => .fuelOut s' w'
  | .ok chapters s' w' =>
    if chapters.length = 0 then
      .ok ⟨["Could not retrieve ICD-" ++ version ++ " chapters."], none⟩ s' w'
    else
      .ok ⟨[String.intercalate "\n"
          (["**ICD-" ++ version ++ " Chapters:**\n"] ++
            chapters.map (fun c => "- **" ++ jsToString c.code ++ "**: " ++ c.title) ++
            ["\nUse \x7b\x22action\x22: \x22children\x22, \x22code\x22: \x22...\x22\x7d to explore a chapter."])],
        none⟩ s' w'

/-- The empty-children text of `handleChildren` (lines 211–220). -/
def noChildrenText (code : String) : String :=
  "No child codes found for \x27" ++ code ++ "\x27. This may be a leaf-level code."

/-- `handleChildren` (handlers.ts, lines 201–231). -/
def handleChildren (cfg : Config) (env : Env) (code version : String) (fuel : Nat)
    (s : ClientState) (w : World) : Step ToolResult :=
  match (if version = "10" then getICD10Children cfg env code fuel s w
         else getICD11Children cfg env code fuel s w) with
  | .err e s' w' => .err e s' w'
  | .fuelOut s' w' => .fuelOut s' w'
  | .ok children s' w' =>
    if children.length = 0 then
      .ok ⟨[noChildrenText code], none⟩ s' w'
    else
      .ok ⟨[String.intercalate "\n"
          (["**Child codes under " ++ code ++ " (ICD-" ++ version ++ "):**\n"] ++
            children.map (fun c => "- **" ++ jsToString c.code ++ "**: " ++ c.title))],
        none⟩ s' w'

/-- `handleApi` (handlers.ts, lines 233–253): reject a path without a
leading slash before any request; otherwise forward and render the JSON,
catching request errors into an error-flagged result. -/
def handleApi (env : Env) (path : String) (fuel : Nat) (s : ClientState)
    (w : World) : Step ToolResult :=
  if !(jsStartsWith path "/") then
    .ok ⟨["Path must start with /"], some true⟩ s w
  else
    match apiRequest env path none fuel s w with
    | .ok r s' w' => .ok ⟨[jsStringifyPretty "" r], none⟩ s' w'
    | .err e s' w' => .ok ⟨["API Error: " ++ e.message], some true⟩ s' w'
    | .fuelOut s' w' => .fuelOut s' w'

/-- The static text returned by `handleHelp` (handlers.ts, lines 255–301). -/
def helpText : String :=
  "# ICD MCP Server\n\nSupports both **ICD-10** and **ICD-11** via the WHO ICD-API.\n\n## Actions\n\n**lookup** - Get code details\n  \x7b\x22action\x22: \x22lookup\x22, \x22code\x22: \x22A00\x22\x7d              (ICD-11 default)\n  \x7b\x22action\x22: \x22lookup\x22, \x22code\x22: \x22J18.9\x22, \x22version\x22: \x2210\x22\x7d\n\n**search** - Find codes by keyword (ICD-11 only)\n  \x7b\x22action\x22: \x22search\x22, \x22query\x22: \x22pneumonia\x22\x7d\n  \x7b\x22action\x22: \x22search\x22, \x22query\x22: \x22diabetes\x22, \x22chapter\x22: \x2205\x22\x7d\n\n**chapters** - List chapters\n  \x7b\x22action\x22: \x22chapters\x22\x7d\n  \x7b\x22action\x22: \x22chapters\x22, \x22version\x22: \x2210\x22\x7d\n\n**children** - Get subcodes\n  \x7b\x22action\x22: \x22children\x22, \x22code\x22: \x22BA00\x22\x7d\n\n**api** - Raw WHO API request\n  \x7b\x22action\x22: \x22api\x22, \x22path\x22: \x22/icd/release/11/2024-01/mms\x22\x7d\n\n## ICD-10 vs ICD-11\n\n| Feature | ICD-10 | ICD-11 |\n|---------|--------|--------|\n| Lookup | Yes | Yes |\n| Search | No* | Yes |\n| Chapters | Yes | Yes |\n| Children | Yes | Yes |\n\n*ICD-10 search not supported by WHO API\n\n## More Info\n- ICD-10: https://icd.who.int/browse10\n- ICD-11: https://icd.who.int/browse11"

/-- The rejection text of the version-10 `search` branch (handlers.ts,
lines 72–82). -/
def icd10SearchText : String :=
  "ICD-10 search is not supported by the WHO API. Use ICD-11 search or lookup by code.\n\nTry: \x7b\x22action\x22: \x22search\x22, \x22query\x22: \x22pneumonia\x22, \x22version\x22: \x2211\x22\x7d"

/-- The `action` enum of the tool's zod schema (src/types.ts). -/
inductive Action where
  | lookup : Action
  | search : Action
  | chapters : Action
  | children : Action
  | api : Action
  | help : Action
deriving DecidableEq

/-- `ICDParamsType` (src/types.ts): the parsed tool parameters.  The zod
schema restricts `version` to `"10" | "11"`, but the model keeps it as an
arbitrary optional string, matching the dispatcher's own string tests. -/
structure ICDParamsType where
  action : Action
  code : Option String
  query : Option String
  version : Option String
  chapter : Option String
  max_results : Option Int
  path : Option String

/-- `params.version || "11"` (handlers.ts, line 63). -/
def versionOf (p : ICDParamsType) : String :=
  match p.version with
  | none => "11"
  | some v => if v = "" then "11" else v

/-- `params.max_results || 10` (handlers.ts, line 83): an absent *or zero*
(falsy) `max_results` becomes the default 10. -/
def maxResultsOf (p : ICDParamsType) : Int :=
  match p.max_results with
  | none => 10
  | some n => if n = 0 then 10 else n

/-- The body of `handleAction`'s `try` block (handlers.ts, lines 62–104):
validate the action-specific required fields, then dispatch.  Thrown
validation errors surface as `.err`; the `default` branch of the `switch`
is unreachable for zod-parsed parameters and is not modelled. -/
def handleActionInner (cfg : Config) (env : Env) (p : ICDParamsType)
    (fuel : Nat) (s : ClientState) (w : World) : Step ToolResult :=
  let version := versionOf p
  match p.action with
  | .lookup =>
    if optFalsy p.code then .err ⟨"code required for lookup"⟩ s w
    else handleLookup cfg env (p.code.getD "") version fuel s w
  | .search =>
    if optFalsy p.query then .err ⟨"query required for search"⟩ s w
    else if version = "10" then .ok ⟨[icd10SearchText], some true⟩ s w
    else handleSearch cfg env (p.query.getD "") (maxResultsOf p) p.chapter fuel s w
  | .chapters => handleChapters cfg env version fuel s w
  | .children =>
    if optFalsy p.code then .err ⟨"code required for children"⟩ s w
    else handleChildren cfg env (p.code.getD "") version fuel s w
  | .api =>
    if optFalsy p.path then .err ⟨"path required for api"⟩ s w
    else handleApi env (p.path.getD "") fuel s w
  | .help => .ok ⟨[helpText], none⟩ s w

/-- `handleAction` (handlers.ts, lines 58–112): the dispatch body wrapped
in the top-level `try`/`catch` that converts every thrown error into an
error-flagged text result.  Fuel exhaustion models divergence, which no
`catch` can intercept. -/
def handleAction (cfg : Config) (env : Env) (p : ICDParamsType) (fuel : Nat)
    (s : ClientState) (w : World) : Step ToolResult :=
  match handleActionInner cfg env p fuel s w with
  | .err e s' w' => .ok ⟨["Error: " ++ e.message], some true⟩ s' w'
  | r => r

-- ==================== Concrete fixtures for witnesses/counterexamples ====================

/-- A fixed configuration with the default releases. -/
def cfgX : Config := ⟨"id", "secret", "2019", "2024-01", "en"⟩

/-- Environment whose token endpoint always succeeds and whose API answers
401 to the first two requests and then succeeds. -/
def envX : Env :=
  { now := fun _ => 0
    authResp := fun _ => ⟨200, "tok", 3600, ""⟩
    apiResp := fun i => if i < 2 then ⟨401, .null, ""⟩ else ⟨200, .str "payload", ""⟩ }

/-- Environment whose API answers 401 once and then succeeds. -/
def env401then200 : Env :=
  { now := fun _ => 0
    authResp := fun _ => ⟨200, "tok", 3600, ""⟩
    apiResp := fun i => if i = 0 then ⟨401, .null, ""⟩ else ⟨200, .str "ok", ""⟩ }

/-- Environment whose API always succeeds with an empty object (so a
version-11 code lookup finds no `stemId`). -/
def envNotFound : Env :=
  { now := fun _ => 0
    authResp := fun _ => ⟨200, "tok", 3600, ""⟩
    apiResp := fun _ => ⟨200, .obj [], ""⟩ }

/-- Environment resolving a codeinfo request to a stem URI and every
further request to an entity that declares no children. -/
def envNoChildren : Env :=
  { now := fun _ => 0
    authResp := fun _ => ⟨200, "tok", 3600, ""⟩
    apiResp := fun i =>
      if i = 0 then ⟨200, .obj [("stemId", .str "https://id.who.int/icd/entity/1")], ""⟩
      else ⟨200, .obj [("code", .str "BA00"), ("title", .str "Cholera")], ""⟩ }

/-- Three search hits, the second and third with absent fields. -/
def searchHitsX : List JsValue :=
  [.obj [("theCode", .str "1A00"), ("title", .str "Cholera"), ("id", .str "u1")],
   .obj [],
   .obj [("theCode", .str "1A02")]]

/-- Environment whose API always answers with the three fixed search hits. -/
def envSearch : Env :=
  { now := fun _ => 0
    authResp := fun _ => ⟨200, "tok", 3600, ""⟩
    apiResp := fun _ => ⟨200, .obj [("destinationEntities", .arr searchHitsX)], ""⟩ }

/-- Environment whose API answers with a hit list containing a JSON
`null` hit. -/
def envNullHit : Env :=
  { now := fun _ => 0
    authResp := fun _ => ⟨200, "tok", 3600, ""⟩
    apiResp := fun _ => ⟨200, .obj [("destinationEntities", .arr [.null])], ""⟩ }

/-- Environment whose API answers every request with a JSON `null` body. -/
def envNullBody : Env :=
  { now := fun _ => 0
    authResp := fun _ => ⟨200, "tok", 3600, ""⟩
    apiResp := fun _ => ⟨200, .null, ""⟩ }

-- ==================== C2: parseEntity title normalization ====================

/-- Shared evaluation fact: `String(v || "")` on a string is that string. -/
theorem jsToString_jsOr_str_empty (t : String) :
    jsToString (jsOr (.str t) (.str "")) = t := by
  by_cases h : t = "" <;> simp [jsOr, jsTruthy, jsToString, h]

/-- C2, counterexample: normalizing an entity whose title is the object
`{"value": "Cholera"}` does *not* yield `"Cholera"`: `parseEntity` looks
for the localized sub-field under the key `"@value"`, so a `"value"` key
falls through to the `JSON.stringify` fallback and the title becomes the
serialized object text. -/
theorem parseEntity_title_value_cex :
    (parseEntity (.obj [("title", .obj [("value", .str "Cholera")])])).title
        = "\x7b\x22value\x22:\x22Cholera\x22\x7d" ∧
    (parseEntity (.obj [("title", .obj [("value", .str "Cholera")])])).title
        ≠ "Cholera" := by
  refine ⟨rfl, by decide⟩

/-- C2 (amended): a plain-string title is kept verbatim; a localized title
object `{"@value": "Cholera"}` yields `"Cholera"`; an absent title yields
the empty string.  The `title` field of the result is a total `String`
(never absent). -/
theorem parseEntity_title_spec :
    (∀ (d : JsValue) (t : String),
        getField d "title" = .str t → (parseEntity d).title = t) ∧
    (parseEntity (.obj [("title", .obj [("@value", .str "Cholera")])])).title
        = "Cholera" ∧
    (∀ d : JsValue, getField d "title" = .undefined → (parseEntity d).title = "") := by
  refine ⟨?_, rfl, ?_⟩
  · intro d t h
    simp only [parseEntity, h, isObjectNotNull]
    exact jsToString_jsOr_str_empty t
  · intro d h
    simp only [parseEntity, h, isObjectNotNull]
    rfl

/-- C2 witness: the two universally quantified parts of
`parseEntity_title_spec` at concrete records. -/
theorem parseEntity_title_spec_witness :
    (parseEntity (.obj [("title", .str "Vibrio")])).title = "Vibrio" ∧
    (parseEntity (.obj [("code", .str "1A00")])).title = "" :=
  ⟨parseEntity_title_spec.1 _ "Vibrio" rfl, parseEntity_title_spec.2.2 _ rfl⟩

-- ==================== C3: ensureToken ====================

/-- C3, counterexample: a token *is* cached (the empty string) and its
recorded expiry (1000000) is after the current time (0), yet `ensureToken`
performs a new authentication call (`auths` rises from 0 to 1) and returns
the freshly fetched token instead of the cached one: the guard
`!this.accessToken` treats a cached empty-string token as absent. -/
theorem ensureToken_empty_token_cex :
    ensureToken envX ⟨some "", 1000000⟩ ⟨0, 0, 0⟩
        = .ok "tok" ⟨some "tok", 3300000⟩ ⟨1, 1, 0⟩ ∧
    envX.now 0 < 1000000 := by
  refine ⟨rfl, by decide⟩

/-- C3 (amended): a cached *non-empty* token whose recorded expiry is in
the future is returned unchanged with no authentication call; if the token
is absent or empty, or the current time has reached the expiry, exactly
one authentication call is made and, when it succeeds, the new expiry is
the `Date.now()` reading plus `(expires_in - 300)` seconds (stored in
milliseconds). -/
theorem ensureToken_spec :
    ∀ (env : Env) (s : ClientState) (w : World),
      (∀ t : String, s.accessToken = some t → t ≠ "" →
        env.now w.clock < s.tokenExpiry →
        ensureToken env s w = .ok t s ⟨w.clock + 1, w.auths, w.apis⟩) ∧
      ((s.accessToken = none ∨ s.accessToken = some "") →
        200 ≤ (env.authResp w.auths).status → (env.authResp w.auths).status < 300 →
        ensureToken env s w = .ok (env.authResp w.auths).accessToken
          ⟨some (env.authResp w.auths).accessToken,
            env.now w.clock + ((env.authResp w.auths).expiresIn - 300) * 1000⟩
          ⟨w.clock + 1, w.auths + 1, w.apis⟩) ∧
      (∀ t : String, s.accessToken = some t → t ≠ "" →
        s.tokenExpiry ≤ env.now w.clock →
        200 ≤ (env.authResp w.auths).status → (env.authResp w.auths).status < 300 →
        ensureToken env s w = .ok (env.authResp w.auths).accessToken
          ⟨some (env.authResp w.auths).accessToken,
            env.now (w.clock + 1) + ((env.authResp w.auths).expiresIn - 300) * 1000⟩
          ⟨w.clock + 2, w.auths + 1, w.apis⟩) := by
  intro env s w
  rcases s with ⟨tok, exp⟩
  rcases w with ⟨wc, wa, wq⟩
  refine ⟨?_, ?_, ?_⟩
  · intro t ht htne hlt
    subst ht
    simp only [ensureToken, authenticate, htne, if_neg, htne]
    simp [htne, not_le.mpr hlt]
  · intro htok hlo hhi
    rcases htok with h | h <;>
      simp only [ClientState.accessToken] at h <;> subst h <;>
      simp [ensureToken, authenticate, hlo, hhi]
  · intro t ht htne hle hlo hhi
    subst ht
    simp only [ensureToken, authenticate]
    simp [htne, hle, hlo, hhi]

/-- C3 witness: `ensureToken_spec` applied to a cached non-empty unexpired
token: it is reused as-is with no authentication call. -/
theorem ensureToken_spec_witness :
    ensureToken envX ⟨some "abc", 1000000⟩ ⟨0, 0, 0⟩
        = .ok "abc" ⟨some "abc", 1000000⟩ ⟨1, 0, 0⟩ :=
  (ensureToken_spec envX ⟨some "abc", 1000000⟩ ⟨0, 0, 0⟩).1 "abc" rfl
    (by decide) (by decide)

-- ==================== C1: 401 retry behaviour of apiRequest ====================

/-- Shared evaluation fact: while the token endpoint keeps succeeding,
`ensureToken` always succeeds and performs no API call. -/
theorem ensureToken_auth_ok (env : Env) (s : ClientState) (w : World)
    (hauth : ∀ j, 200 ≤ (env.authResp j).status ∧ (env.authResp j).status < 300) :
    ∃ t s' w', ensureToken env s w = .ok t s' w' ∧ w'.apis = w.apis := by
  rcases s with ⟨tok, exp⟩
  rcases w with ⟨wc, wa, wq⟩
  obtain ⟨hlo, hhi⟩ := hauth wa
  cases tok with
  | none =>
    refine ⟨(env.authResp wa).accessToken,
      ⟨some (env.authResp wa).accessToken,
        env.now wc + ((env.authResp wa).expiresIn - 300) * 1000⟩,
      ⟨wc + 1, wa + 1, wq⟩, ?_, rfl⟩
    simp [ensureToken, authenticate, hlo, hhi]
  | some t =>
    by_cases ht : t = ""
    · refine ⟨(env.authResp wa).accessToken,
        ⟨some (env.authResp wa).accessToken,
          env.now wc + ((env.authResp wa).expiresIn - 300) * 1000⟩,
        ⟨wc + 1, wa + 1, wq⟩, ?_, rfl⟩
      simp [ensureToken, authenticate, ht, hlo, hhi]
    · by_cases hexp : exp ≤ env.now wc
      · refine ⟨(env.authResp wa).accessToken,
          ⟨some (env.authResp wa).accessToken,
            env.now (wc + 1) + ((env.authResp wa).expiresIn - 300) * 1000⟩,
          ⟨wc + 2, wa + 1, wq⟩, ?_, rfl⟩
        simp [ensureToken, authenticate, ht, hexp, hlo, hhi]
      · refine ⟨t, ⟨some t, exp⟩, ⟨wc + 1, wa, wq⟩, ?_, rfl⟩
        simp [ensureToken, authenticate, ht, hexp]

/-- C1, counterexample: re-authentication always succeeds and the service
answers 401, 401, 200.  The modelled `apiRequest` call succeeds with the
third response after *three* API calls (`apis = 3`) and three
authentications: the second consecutive 401 did not propagate as an
error — the request was simply retried again, because the recursion
carries no retry counter. -/
theorem apiRequest_second_401_cex :
    apiRequest envX "/icd/release/11/2024-01/mms" none 5 ⟨none, 0⟩ ⟨0, 0, 0⟩
        = .ok (.str "payload") ⟨some "tok", 3300000⟩ ⟨3, 3, 3⟩ := rfl

/-- C1 (amended): on each 401 response the client invalidates the cached
token and retries the request with a freshly obtained token, with *no*
retry limit: for every `n`, if the service answers 401 to the first `n`
requests and then succeeds, the call succeeds after `n` retries
(`n + 1` API calls in total) — a second consecutive 401 leads to a
further retry, never to a propagated error, while re-authentication
succeeds.  And if the service answers 401 forever (with
re-authentication succeeding), the recursion exhausts *any* amount of
fuel: the unbounded retry loop never terminates. -/
theorem apiRequest_401_retry_unbounded :
    (∀ (n : Nat) (env : Env) (endpoint : String)
      (params : Option (List (String × String))) (s : ClientState) (w : World),
      (∀ j, 200 ≤ (env.authResp j).status ∧ (env.authResp j).status < 300) →
      (∀ i, i < n → (env.apiResp (w.apis + i)).status = 401) →
      200 ≤ (env.apiResp (w.apis + n)).status →
      (env.apiResp (w.apis + n)).status < 300 →
      ∃ s' w', apiRequest env endpoint params (n + 1) s w
          = .ok (env.apiResp (w.apis + n)).json s' w' ∧ w'.apis = w.apis + n + 1) ∧
    (∀ (env : Env) (endpoint : String)
      (params : Option (List (String × String))) (fuel : Nat)
      (s : ClientState) (w : World),
      (∀ j, 200 ≤ (env.authResp j).status ∧ (env.authResp j).status < 300) →
      (∀ i, (env.apiResp i).status = 401) →
      ∃ s' w', apiRequest env endpoint params fuel s w = .fuelOut s' w') := by
  constructor
  · intro n
    induction n with
      | zero =>
        intro env endpoint params s w hauth _h401 hlo hhi
        simp only [Nat.add_zero] at hlo hhi ⊢
        obtain ⟨t, s1, w1, hens, hapis⟩ := ensureToken_auth_ok env s w hauth
        rcases w1 with ⟨c1, a1, q1⟩
        simp only [World.apis] at hapis
        subst hapis
        have h1 : (env.apiResp w.apis).status ≠ 401 := by omega
        have h2 : (env.apiResp w.apis).status ≠ 429 := by omega
        refine ⟨s1, ⟨c1, a1, w.apis + 1⟩, ?_, rfl⟩
        simp [apiRequest, hens, h1, h2, hlo, hhi]
      | succ n ih =>
        intro env endpoint params s w hauth h401s hlo hhi
        obtain ⟨t, s1, w1, hens, hapis⟩ := ensureToken_auth_ok env s w hauth
        rcases w1 with ⟨c1, a1, q1⟩
        simp only [World.apis] at hapis
        subst hapis
        have h401 : (env.apiResp w.apis).status = 401 := by
          simpa using h401s 0 (by omega)
        obtain ⟨s', w', hrec, hapis'⟩ :=
          ih env endpoint params { s1 with accessToken := none } ⟨c1, a1, w.apis + 1⟩
            hauth
            (fun i hi => by
              simp only [World.apis]
              rw [show w.apis + 1 + i = w.apis + (i + 1) from by omega]
              exact h401s (i + 1) (by omega))
            (by simp only [World.apis]
                rw [show w.apis + 1 + n = w.apis + (n + 1) from by omega]
                exact hlo)
            (by simp only [World.apis]
                rw [show w.apis + 1 + n = w.apis + (n + 1) from by omega]
                exact hhi)
        simp only [World.apis] at hrec hapis'
        refine ⟨s', w', ?_, by omega⟩
        rw [show w.apis + (n + 1) = w.apis + 1 + n from by omega]
        simp only [apiRequest, hens, h401]
        simp only [apiRequest] at hrec
        simpa using hrec
  · intro env endpoint params fuel
    induction fuel with
    | zero =>
      intro s w _hauth _h401
      exact ⟨s, w, rfl⟩
    | succ fuel ih =>
      intro s w hauth h401
      obtain ⟨t, s1, w1, hens, _hapis⟩ := ensureToken_auth_ok env s w hauth
      obtain ⟨s', w', hrec⟩ :=
        ih { s1 with accessToken := none } { w1 with apis := w1.apis + 1 } hauth h401
      refine ⟨s', w', ?_⟩
      simp only [apiRequest, hens, h401 w1.apis]
      exact hrec

/-- C1 witness: `apiRequest_401_retry_unbounded` at `n = 1` in the
environment answering 401 once and then 200. -/
theorem apiRequest_401_retry_unbounded_witness :
    ∃ s' w', apiRequest env401then200 "/icd/release/10/2019" none 2 ⟨none, 0⟩ ⟨0, 0, 0⟩
        = .ok (.str "ok") s' w' ∧ w'.apis = 2 := by
  have h200 : (200 : Nat) ≤ 200 := Nat.le_refl 200
  have h300 : (200 : Nat) < 300 := by decide
  have h := apiRequest_401_retry_unbounded.1 1 env401then200 "/icd/release/10/2019"
    none ⟨none, 0⟩ ⟨0, 0, 0⟩
    (fun _ => ⟨h200, h300⟩)
    (fun i hi => by
      have : i = 0 := by omega
      subst this; rfl)
    h200 h300
  simpa using h

-- ==================== C4: search on version 10 ====================

/-- C4, counterexample: a search request with `version: "10"` and the
query *supplied as the empty string* is answered with the generic
validation error `"Error: query required for search"` (the `!params.query`
check treats `""` as missing), not with the explanatory message about the
upstream ICD-10 search limitation the claim requires; the error flag and
the absence of network calls still hold. -/
theorem handleAction_v10_empty_query_cex :
    handleAction cfgX envX ⟨.search, none, some "", some "10", none, none, none⟩ 5
        ⟨none, 0⟩ ⟨0, 0, 0⟩
      = .ok ⟨["Error: query required for search"], some true⟩ ⟨none, 0⟩ ⟨0, 0, 0⟩ ∧
    "Error: query required for search" ≠ icd10SearchText := by
  refine ⟨rfl, by decide⟩

/-- C4 (amended): a search request with `version: "10"` and a *non-empty*
query is answered, in any environment and from any client state, with the
error-flagged upstream-limitation text, leaving the state and the call
counters untouched (no network call). -/
theorem handleAction_v10_search_rejected :
    ∀ (cfg : Config) (env : Env) (p : ICDParamsType) (fuel : Nat)
      (s : ClientState) (w : World) (q : String),
      p.action = .search → p.query = some q → q ≠ "" → p.version = some "10" →
      handleAction cfg env p fuel s w = .ok ⟨[icd10SearchText], some true⟩ s w := by
  intro cfg env p fuel s w q ha hq hqne hv
  simp [handleAction, handleActionInner, ha, hq, hv, optFalsy, versionOf, hqne]

/-- C4 witness: `handleAction_v10_search_rejected` at a concrete request. -/
theorem handleAction_v10_search_rejected_witness :
    handleAction cfgX envX ⟨.search, none, some "pneumonia", some "10", none, none, none⟩
        5 ⟨none, 0⟩ ⟨0, 0, 0⟩
      = .ok ⟨[icd10SearchText], some true⟩ ⟨none, 0⟩ ⟨0, 0, 0⟩ :=
  handleAction_v10_search_rejected cfgX envX _ 5 ⟨none, 0⟩ ⟨0, 0, 0⟩ "pneumonia"
    rfl rfl (by decide) rfl

-- ==================== C5: dispatcher catches everything ====================

/-- C5 (confirmed): for every parameter record, environment, state and
fuel, the dispatcher never finishes in a thrown error (the top-level
`catch` intercepts everything thrown inside dispatch), and whenever the
dispatch body throws, the result is the error-flagged text
`"Error: <message>"`.  (The remaining outcome, fuel exhaustion, models
divergence of the 401-retry loop, which is not an exception and which no
`catch` can intercept.) -/
theorem handleAction_catches_all :
    (∀ (cfg : Config) (env : Env) (p : ICDParamsType) (fuel : Nat)
        (s : ClientState) (w : World),
        (handleAction cfg env p fuel s w).isErr = false) ∧
    (∀ (cfg : Config) (env : Env) (p : ICDParamsType) (fuel : Nat)
        (s : ClientState) (w : World) (e : JsError) (s' : ClientState) (w' : World),
        handleActionInner cfg env p fuel s w = .err e s' w' →
        handleAction cfg env p fuel s w
          = .ok ⟨["Error: " ++ e.message], some true⟩ s' w') := by
  constructor
  · intro cfg env p fuel s w
    unfold handleAction
    cases handleActionInner cfg env p fuel s w <;> simp [Step.isErr]
  · intro cfg env p fuel s w e s' w' h
    unfold handleAction
    rw [h]

/-- C5 witness: a lookup with the required `code` field missing makes the
dispatch body throw, and the dispatcher converts that into an
error-flagged result. -/
theorem handleAction_catches_all_witness :
    handleAction cfgX envX ⟨.lookup, none, none, none, none, none, none⟩ 5
        ⟨none, 0⟩ ⟨0, 0, 0⟩
      = .ok ⟨["Error: code required for lookup"], some true⟩ ⟨none, 0⟩ ⟨0, 0, 0⟩ :=
  handleAction_catches_all.2 cfgX envX ⟨.lookup, none, none, none, none, none, none⟩
    5 ⟨none, 0⟩ ⟨0, 0, 0⟩ ⟨"code required for lookup"⟩ ⟨none, 0⟩ ⟨0, 0, 0⟩ rfl

-- ==================== C7: api path validation ====================

/-- C7, counterexample: an api request whose path is the *empty* string —
which does not start with `"/"` — is rejected with the generic validation
error `"Error: path required for api"` (the `!params.path` check fires
first on the falsy empty string), not with the exact text
`"Path must start with /"` the claim requires; no network call is made. -/
theorem handleAction_api_empty_path_cex :
    handleAction cfgX envX ⟨.api, none, none, none, none, none, some ""⟩ 5
        ⟨none, 0⟩ ⟨0, 0, 0⟩
      = .ok ⟨["Error: path required for api"], some true⟩ ⟨none, 0⟩ ⟨0, 0, 0⟩ ∧
    jsStartsWith "" "/" = false ∧
    "Error: path required for api" ≠ "Path must start with /" := by
  refine ⟨rfl, rfl, by decide⟩

/-- C7 (amended): an api request whose *non-empty* path does not start
with `"/"` is answered, in any environment and from any client state, with
the error-flagged result text exactly `"Path must start with /"`, leaving
state and call counters untouched (no network call). -/
theorem handleAction_api_no_slash :
    ∀ (cfg : Config) (env : Env) (p : ICDParamsType) (fuel : Nat)
      (s : ClientState) (w : World) (pa : String),
      p.action = .api → p.path = some pa → pa ≠ "" → jsStartsWith pa "/" = false →
      handleAction cfg env p fuel s w
        = .ok ⟨["Path must start with /"], some true⟩ s w := by
  intro cfg env p fuel s w pa ha hp hpne hslash
  simp [handleAction, handleActionInner, handleApi, ha, hp, optFalsy, hpne, hslash]

/-- C7 witness: `handleAction_api_no_slash` at the spec's example path
`"mms"`. -/
theorem handleAction_api_no_slash_witness :
    handleAction cfgX envX ⟨.api, none, none, none, none, none, some "mms"⟩ 5
        ⟨none, 0⟩ ⟨0, 0, 0⟩
      = .ok ⟨["Path must start with /"], some true⟩ ⟨none, 0⟩ ⟨0, 0, 0⟩ :=
  handleAction_api_no_slash cfgX envX _ 5 ⟨none, 0⟩ ⟨0, 0, 0⟩ "mms"
    rfl rfl (by decide) rfl

-- ==================== C10: max_results = 0 ====================

/-- C10 (confirmed): a search request with `max_results = 0` is handled
exactly like one with `max_results` absent — `params.max_results || 10`
treats the falsy `0` as missing — so both use the default cap 10 and a
caller cannot request a zero-length result list this way.  The equality
holds for every action (the other actions ignore `max_results`). -/
theorem maxResults_zero_as_absent :
    (∀ (cfg : Config) (env : Env) (a : Action) (c q v ch pa : Option String)
        (fuel : Nat) (s : ClientState) (w : World),
        handleAction cfg env ⟨a, c, q, v, ch, some 0, pa⟩ fuel s w
          = handleAction cfg env ⟨a, c, q, v, ch, none, pa⟩ fuel s w) ∧
    maxResultsOf ⟨.search, none, none, none, none, some 0, none⟩ = 10 ∧
    maxResultsOf ⟨.search, none, none, none, none, none, none⟩ = 10 := by
  refine ⟨?_, rfl, rfl⟩
  intro cfg env a c q v ch pa fuel s w
  cases a <;> rfl

-- ==================== C8: lookup of an unresolvable code ====================

/-- Shared evaluation fact: `getEntityByUri` wraps its request and parse
in a `try` returning `null`, so it never finishes in a thrown error. -/
theorem getEntityByUri_no_err (env : Env) (uri : String) (fuel : Nat)
    (s : ClientState) (w : World) :
    (getEntityByUri env uri fuel s w).isErr = false := by
  unfold getEntityByUri
  cases h : apiRequest env (replaceFirst (if jsStartsWith uri "http://" then
      replaceFirst uri "http://" "https://" else uri) "https://id.who.int" "")
      none fuel s w with
  | ok data s' w' => cases data <;> simp [Step.isErr, h]
  | err e s' w' => simp [Step.isErr, h]
  | fuelOut s' w' => simp [Step.isErr, h]

/-- C8 (confirmed): the code-lookup operations never finish in a thrown
error — an unresolvable code yields `null` — and when the
version-selected lookup yields `null`, the dispatcher renders a result
*without* the error flag whose text is the not-found message (which names
the code and suggests a search action). -/
theorem lookup_not_found_spec :
    (∀ (cfg : Config) (env : Env) (code : String) (fuel : Nat)
        (s : ClientState) (w : World),
        (getICD11Code cfg env code fuel s w).isErr = false) ∧
    (∀ (cfg : Config) (env : Env) (code : String) (fuel : Nat)
        (s : ClientState) (w : World),
        (getICD10Code cfg env code fuel s w).isErr = false) ∧
    (∀ (cfg : Config) (env : Env) (p : ICDParamsType) (fuel : Nat)
        (s : ClientState) (w : World) (c : String) (s' : ClientState) (w' : World),
        p.action = .lookup → p.code = some c → c ≠ "" → versionOf p ≠ "10" →
        getICD11Code cfg env c fuel s w = .ok none s' w' →
        handleAction cfg env p fuel s w
          = .ok ⟨[notFoundText (versionOf p) c], none⟩ s' w') ∧
    (∀ (cfg : Config) (env : Env) (p : ICDParamsType) (fuel : Nat)
        (s : ClientState) (w : World) (c : String) (s' : ClientState) (w' : World),
        p.action = .lookup → p.code = some c → c ≠ "" → versionOf p = "10" →
        getICD10Code cfg env c fuel s w = .ok none s' w' →
        handleAction cfg env p fuel s w
          = .ok ⟨[notFoundText "10" c], none⟩ s' w') := by
  refine ⟨?_, ?_, ?_, ?_⟩
  · intro cfg env code fuel s w
    unfold getICD11Code
    cases h : apiRequest env
        ("/icd/release/11/" ++ cfg.icd11Release ++ "/mms/codeinfo/" ++ code)
        none fuel s w with
    | ok data s' w' =>
      cases hs : getField data "stemId" <;> simp [Step.isErr, h, hs]
      case str stemId =>
        by_cases he : stemId = ""
        · simp [he, Step.isErr]
        · simp only [he, if_false]
          exact getEntityByUri_no_err env stemId fuel s' w'
    | err e s' w' => simp [Step.isErr, h]
    | fuelOut s' w' => simp [Step.isErr, h]
  · intro cfg env code fuel s w
    unfold getICD10Code
    cases h : apiRequest env ("/icd/release/10/" ++ cfg.icd10Release ++ "/" ++ code)
        none fuel s w with
    | ok data s' w' => cases data <;> simp [Step.isErr, h]
    | err e s' w' => simp [Step.isErr, h]
    | fuelOut s' w' => simp [Step.isErr, h]
  · intro cfg env p fuel s w c s' w' ha hc hcne hv h
    simp only [handleAction, handleActionInner, ha, handleLookup, hc,
      Option.getD_some, if_neg hv, h]
    simp [optFalsy, hcne]
  · intro cfg env p fuel s w c s' w' ha hc hcne hv h
    simp only [handleAction, handleActionInner, ha, handleLookup, hc,
      Option.getD_some, hv, if_pos, h]
    simp [optFalsy, hcne]

/-- C8 witness: in an environment whose codeinfo response carries no
`stemId`, a version-11 lookup resolves to `null` and the dispatcher
answers with the non-error not-found text. -/
theorem lookup_not_found_spec_witness :
    handleAction cfgX envNotFound ⟨.lookup, some "XXXX", none, none, none, none, none⟩
        5 ⟨none, 0⟩ ⟨0, 0, 0⟩
      = .ok ⟨[notFoundText "11" "XXXX"], none⟩ ⟨some "tok", 3300000⟩ ⟨1, 1, 1⟩ :=
  lookup_not_found_spec.2.2.1 cfgX envNotFound
    ⟨.lookup, some "XXXX", none, none, none, none, none⟩ 5 ⟨none, 0⟩ ⟨0, 0, 0⟩
    "XXXX" ⟨some "tok", 3300000⟩ ⟨1, 1, 1⟩ rfl rfl (by decide) (by decide) rfl

-- ==================== C9: search result truncation and defaults ====================

/-- Shared evaluation fact: the hit loop succeeds on a list of hits none
of which is `null`/`undefined`, converting them in order. -/
theorem searchResultsLoop_ok :
    ∀ (xs : List JsValue), (∀ item ∈ xs, item ≠ .null ∧ item ≠ .undefined) →
      searchResultsLoop xs = .ok (xs.map toSearchResult) := by
  intro xs
  induction xs with
  | nil => intro _; rfl
  | cons a rest ih =>
    intro h
    obtain ⟨hn, hu⟩ := h a (List.mem_cons_self a rest)
    have hr := ih (fun item hm => h item (List.mem_cons_of_mem a hm))
    cases a <;> simp_all [searchResultsLoop]

/-- Shared evaluation fact: the hit loop throws as soon as the list holds
a `null`/`undefined` hit. -/
theorem searchResultsLoop_err :
    ∀ (xs : List JsValue),
      (∃ item ∈ xs, item = JsValue.null ∨ item = JsValue.undefined) →
      ∃ e, searchResultsLoop xs = .error e := by
  intro xs
  induction xs with
  | nil =>
    rintro ⟨item, hm, _⟩
    cases hm
  | cons a rest ih =>
    rintro ⟨item, hm, hnull⟩
    rcases List.mem_cons.mp hm with rfl | hrest
    · rcases hnull with rfl | rfl
      · exact ⟨_, rfl⟩
      · exact ⟨_, rfl⟩
    · obtain ⟨e, he⟩ := ih ⟨item, hrest, hnull⟩
      cases a <;> first
        | exact ⟨_, rfl⟩
        | exact ⟨e, by simp [searchResultsLoop, he]⟩

/-- C9, counterexample: a search response whose hit list contains a JSON
`null` hit does *not* default that hit's fields — the source throws an
uncaught `TypeError` at `item.theCode` (client line 222) and the whole
search fails, contradicting "never causing a failure"; likewise a search
response whose entire body is JSON `null` throws at
`data.destinationEntities` (line 218). -/
theorem searchICD11_null_hit_cex :
    searchICD11 cfgX envNullHit "cholera" 10 none 5 ⟨none, 0⟩ ⟨0, 0, 0⟩
        = .err ⟨"Cannot read properties of null (reading \x27theCode\x27)"⟩
            ⟨some "tok", 3300000⟩ ⟨1, 1, 1⟩ ∧
    searchICD11 cfgX envNullBody "cholera" 10 none 5 ⟨none, 0⟩ ⟨0, 0, 0⟩
        = .err ⟨"Cannot read properties of null (reading \x27destinationEntities\x27)"⟩
            ⟨some "tok", 3300000⟩ ⟨1, 1, 1⟩ := ⟨rfl, rfl⟩

/-- C9 (amended): for a caller-specified non-negative maximum, a search
over a non-nullish response body whose (possibly defaulted)
`destinationEntities` is an array of non-nullish hits yields exactly the
per-hit conversion of the first `maxResults` hits in upstream order, with
the result length at most the maximum; for each non-nullish hit, absent
`theCode`/`title`/`id` fields default to `""` and absent `score`/`chapter`
stay `undefined`.  A `null` response body, or a `null`/`undefined` hit in
the sliced prefix, instead raises an uncaught `TypeError` inside
`searchICD11` (later converted by the dispatcher's top-level catch). -/
theorem searchICD11_truncation_spec :
    (∀ (cfg : Config) (env : Env) (q : String) (mx : Int) (ch : Option String)
      (fuel : Nat) (s : ClientState) (w : World) (data dest : JsValue)
      (s' : ClientState) (w' : World) (xs : List JsValue),
      0 ≤ mx →
      apiRequest env ("/icd/release/11/" ++ cfg.icd11Release ++ "/mms/search")
        (some (searchParams q ch)) fuel s w = .ok data s' w' →
      jsMember data "destinationEntities" = .ok dest →
      jsOr dest (.arr []) = .arr xs →
      (∀ item ∈ xs.take mx.toNat, item ≠ .null ∧ item ≠ .undefined) →
      searchICD11 cfg env q mx ch fuel s w
          = .ok ((xs.take mx.toNat).map toSearchResult) s' w' ∧
      ((xs.take mx.toNat).map toSearchResult).length ≤ mx.toNat) ∧
    (∀ (item : JsValue), item ≠ .null → item ≠ .undefined →
      (getField item "theCode" = .undefined → (toSearchResult item).code = .str "") ∧
      (getField item "title" = .undefined → (toSearchResult item).title = .str "") ∧
      (getField item "id" = .undefined → (toSearchResult item).uri = .str "") ∧
      (getField item "score" = .undefined → (toSearchResult item).score = .undefined) ∧
      (getField item "chapter" = .undefined → (toSearchResult item).chapter = .undefined)) ∧
    (∀ (cfg : Config) (env : Env) (q : String) (mx : Int) (ch : Option String)
      (fuel : Nat) (s : ClientState) (w : World) (s' : ClientState) (w' : World),
      apiRequest env ("/icd/release/11/" ++ cfg.icd11Release ++ "/mms/search")
        (some (searchParams q ch)) fuel s w = .ok .null s' w' →
      searchICD11 cfg env q mx ch fuel s w
        = .err ⟨"Cannot read properties of null (reading \x27destinationEntities\x27)"⟩
            s' w') ∧
    (∀ (cfg : Config) (env : Env) (q : String) (mx : Int) (ch : Option String)
      (fuel : Nat) (s : ClientState) (w : World) (data dest : JsValue)
      (s' : ClientState) (w' : World) (xs : List JsValue),
      apiRequest env ("/icd/release/11/" ++ cfg.icd11Release ++ "/mms/search")
        (some (searchParams q ch)) fuel s w = .ok data s' w' →
      jsMember data "destinationEntities" = .ok dest →
      jsOr dest (.arr []) = .arr xs →
      (∃ item ∈ jsSliceTo xs mx, item = JsValue.null ∨ item = JsValue.undefined) →
      ∃ e, searchICD11 cfg env q mx ch fuel s w = .err e s' w') := by
  refine ⟨?_, ?_, ?_, ?_⟩
  · intro cfg env q mx ch fuel s w data dest s' w' xs hmx hapi hmem hent hitems
    have hslice : jsSliceTo xs mx = xs.take mx.toNat := by
      simp [jsSliceTo, not_lt.mpr hmx]
    refine ⟨?_, by simp [List.length_take]⟩
    simp only [searchICD11, hapi, hmem, hent, hslice, searchResultsLoop_ok _ hitems]
  · intro item hn hu
    refine ⟨?_, ?_, ?_, ?_, ?_⟩ <;> intro h <;>
      simp [toSearchResult, h, jsOr, jsTruthy]
  · intro cfg env q mx ch fuel s w s' w' hapi
    simp only [searchICD11, hapi, jsMember]
    rfl
  · intro cfg env q mx ch fuel s w data dest s' w' xs hapi hmem hent hnull
    obtain ⟨e, he⟩ := searchResultsLoop_err _ hnull
    exact ⟨e, by simp only [searchICD11, hapi, hmem, hent, he]⟩

/-- C9 witness: the positive part of `searchICD11_truncation_spec` in the
fixed three-hit environment with maximum 2: the first two hits in order
(the second with defaulted fields). -/
theorem searchICD11_truncation_spec_witness :
    searchICD11 cfgX envSearch "cholera" 2 none 5 ⟨none, 0⟩ ⟨0, 0, 0⟩
      = .ok ((searchHitsX.take 2).map toSearchResult) ⟨some "tok", 3300000⟩ ⟨1, 1, 1⟩ :=
  (searchICD11_truncation_spec.1 cfgX envSearch "cholera" 2 none 5 ⟨none, 0⟩ ⟨0, 0, 0⟩
    (.obj [("destinationEntities", .arr searchHitsX)]) (.arr searchHitsX)
    ⟨some "tok", 3300000⟩ ⟨1, 1, 1⟩ searchHitsX (by decide) rfl rfl rfl
    (by
      intro item hm
      simp [searchHitsX] at hm
      rcases hm with rfl | rfl <;> exact ⟨by simp, by simp⟩)).1

-- ==================== C6: children listing ====================

/-- Shared evaluation fact: the child-resolution loop keeps at most one
entity per input URI. -/
theorem childLoop_length_le :
    ∀ (uris : List JsValue) (env : Env) (fuel : Nat) (s : ClientState)
      (w : World) (cs : List ICDEntity) (s' : ClientState) (w' : World),
      childLoop env fuel uris s w = .ok cs s' w' → cs.length ≤ uris.length := by
  intro uris
  induction uris with
  | nil =>
    intro env fuel s w cs s' w' h
    simp only [childLoop] at h
    cases h
    simp
  | cons u rest ih =>
    intro env fuel s w cs s' w' h
    cases u <;> simp only [childLoop] at h <;> try (cases h)
    case str us =>
      cases hg : getEntityByUri env us fuel s w with
      | err e s1 w1 => simp only [hg] at h; cases h
      | fuelOut s1 w1 => simp only [hg] at h; cases h
      | ok entity s1 w1 =>
        simp only [hg] at h
        cases entity with
        | none =>
          have := ih env fuel s1 w1 cs s' w' h
          simpa using Nat.le_succ_of_le this
        | some c =>
          cases hr : childLoop env fuel rest s1 w1 with
          | err e s2 w2 => simp only [hr] at h; cases h
          | fuelOut s2 w2 => simp only [hr] at h; cases h
          | ok cs2 s2 w2 =>
            simp only [hr] at h
            cases h
            simpa using ih env fuel s1 w1 cs2 _ _ hr

/-- C6 (confirmed): a children listing that completes normally holds at
most 20 entities (the declared child URIs are capped at 20 before
resolution, for both versions); a missing parent entity, an entity
without a declared child list, or an empty declared child list all yield
the empty listing rather than an error; and the dispatcher renders an
empty children listing as a result *without* the error flag whose text is
the informative zero-children message — a different, non-error text than
the lookup-failure rendering. -/
theorem children_empty_spec :
    (∀ (cfg : Config) (env : Env) (code : String) (fuel : Nat) (s : ClientState)
        (w : World) (cs : List ICDEntity) (s' : ClientState) (w' : World),
        getICD11Children cfg env code fuel s w = .ok cs s' w' → cs.length ≤ 20) ∧
    (∀ (cfg : Config) (env : Env) (code : String) (fuel : Nat) (s : ClientState)
        (w : World) (cs : List ICDEntity) (s' : ClientState) (w' : World),
        getICD10Children cfg env code fuel s w = .ok cs s' w' → cs.length ≤ 20) ∧
    (∀ (cfg : Config) (env : Env) (code : String) (fuel : Nat) (s : ClientState)
        (w : World) (s' : ClientState) (w' : World),
        getICD11Code cfg env code fuel s w = .ok none s' w' →
        getICD11Children cfg env code fuel s w = .ok [] s' w') ∧
    (∀ (cfg : Config) (env : Env) (code : String) (fuel : Nat) (s : ClientState)
        (w : World) (e : ICDEntity) (s' : ClientState) (w' : World),
        getICD11Code cfg env code fuel s w = .ok (some e) s' w' →
        e.children = none ∨ e.children = some [] →
        getICD11Children cfg env code fuel s w = .ok [] s' w') ∧
    (∀ (cfg : Config) (env : Env) (p : ICDParamsType) (fuel : Nat)
        (s : ClientState) (w : World) (c : String) (s' : ClientState) (w' : World),
        p.action = .children → p.code = some c → c ≠ "" →
        (if versionOf p = "10" then getICD10Children cfg env c fuel s w
         else getICD11Children cfg env c fuel s w) = .ok [] s' w' →
        handleAction cfg env p fuel s w = .ok ⟨[noChildrenText c], none⟩ s' w') := by
  refine ⟨?_, ?_, ?_, ?_, ?_⟩
  · intro cfg env code fuel s w cs s' w' h
    unfold getICD11Children at h
    cases hg : getICD11Code cfg env code fuel s w with
    | err e s1 w1 => simp only [hg] at h; cases h
    | fuelOut s1 w1 => simp only [hg] at h; cases h
    | ok entity s1 w1 =>
      simp only [hg] at h
      cases entity with
      | none => cases h; simp
      | some e =>
        cases hch : e.children with
        | none => simp only [hch] at h; cases h; simp
        | some children =>
          simp only [hch] at h
          calc cs.length ≤ (children.take 20).length :=
                childLoop_length_le _ env fuel s1 w1 cs s' w' h
            _ ≤ 20 := by simp [List.length_take]
  · intro cfg env code fuel s w cs s' w' h
    unfold getICD10Children at h
    cases hg : getICD10Code cfg env code fuel s w with
    | err e s1 w1 => simp only [hg] at h; cases h
    | fuelOut s1 w1 => simp only [hg] at h; cases h
    | ok entity s1 w1 =>
      simp only [hg] at h
      cases entity with
      | none => cases h; simp
      | some e =>
        cases hch : e.children with
        | none => simp only [hch] at h; cases h; simp
        | some children =>
          simp only [hch] at h
          calc cs.length ≤ (children.take 20).length :=
                childLoop_length_le _ env fuel s1 w1 cs s' w' h
            _ ≤ 20 := by simp [List.length_take]
  · intro cfg env code fuel s w s' w' h
    unfold getICD11Children
    rw [h]
  · intro cfg env code fuel s w e s' w' h hch
    unfold getICD11Children
    simp only [h]
    rcases hch with hch | hch <;> simp [hch, childLoop]
  · intro cfg env p fuel s w c s' w' ha hc hcne h
    simp only [handleAction, handleActionInner, ha, handleChildren, hc,
      Option.getD_some, h]
    simp [optFalsy, hcne]

/-- C6 witness: in an environment resolving the parent to an entity with
no declared children, the dispatcher answers the children request with
the non-error zero-children message. -/
theorem children_empty_spec_witness :
    handleAction cfgX envNoChildren ⟨.children, some "BA00", none, none, none, none, none⟩
        9 ⟨none, 0⟩ ⟨0, 0, 0⟩
      = .ok ⟨[noChildrenText "BA00"], none⟩ ⟨some "tok", 3300000⟩ ⟨2, 1, 2⟩ :=
  children_empty_spec.2.2.2.2 cfgX envNoChildren
    ⟨.children, some "BA00", none, none, none, none, none⟩ 9 ⟨none, 0⟩ ⟨0, 0, 0⟩
    "BA00" ⟨some "tok", 3300000⟩ ⟨2, 1, 2⟩ rfl rfl (by decide) rfl

end ICD
